import Mathlib

/-!
Verification of the zfs.util disk-arbitration helper (cmd/zfs_util/zfs_util.c).

This file gives a shallow embedding of the probe/getuuid state machine, the
device-name normalizer, the mount-table scanner, the GUID-directed pool
importer and the cache-file walk, and proves the spec's testable properties
about them.  Machine integers are modelled as `Nat` (values read from
`uint32_t` fields are below 2^32 at every use site); C strings are `List Char`
at byte granularity; fallible collaborator calls (getattrlist,
zpool_search_import, libzfs_init, ...) are modelled as `Option`/`Bool` oracles
supplied as explicit inputs.
-/

namespace ZfsUtil

/-- Exit codes from sys/loadable_fs.h: FSUR_RECOGNIZED, FSUR_UNRECOGNIZED,
FSUR_IO_SUCCESS, FSUR_IO_FAIL, FSUR_INVAL.  Their numeric values are fixed by
the host header and never inspected by this tool, so an enumeration suffices. -/
inductive FSUR where
  | recognized
  | unrecognized
  | ioSuccess
  | ioFail
  | inval
deriving DecidableEq, Repr

/-! ## Device-name normalizer (main, lines 489-494)

    devname = argv[1];
    cp = strrchr(devname, '/');
    if (cp != 0) devname = cp + 1;
    if (*devname == 'r') devname++;
-/

/-- The suffix of `t` strictly after the last '/' (the whole string when no
'/' occurs): the result of `strrchr(devname, '/')` plus one. -/
def afterLastSlash (t : List Char) : List Char :=
  (t.reverse.takeWhile (fun c => c ≠ '/')).reverse

/-- The normalized short device name: substring after the last '/', then one
leading 'r' dropped if present (`if (*devname == 'r') devname++`). -/
def normalizeDevname (t : List Char) : List Char :=
  let d := afterLastSlash t
  if d.head? = some 'r' then d.tail else d

/-! ## Mount-table scanner (main, lines 525-534)

    len = strlen(blockdevice);
    for (i = 0; i < num; i++) {
        if (strlen(statfs[i].f_mntfromname) == len &&
            strcmp(statfs[i].f_mntfromname, blockdevice) == 0) { ... break; }
    }
-/

/-- One row of the getmntinfo mount table: mount source and mount point. -/
structure MountEntry where
  f_mntfromname : List Char
  f_mntonname : List Char
deriving DecidableEq, Repr

/-- The scan of the mount table: the first entry whose source name has the
same length as the block-device path and compares byte-for-byte equal
(strlen check then strcmp).  `is_mounted` is `isSome` of this. -/
def mountScanFind (entries : List MountEntry) (block : List Char) :
    Option MountEntry :=
  entries.find? (fun e =>
    (e.f_mntfromname.length == block.length) && (e.f_mntfromname == block))

/-! ## PROBE attribute buffer (struct attrNameBuf; main, lines 578-596)

    struct attrNameBuf { uint32_t length; attrreference_t nameRef;
                         char name[MAXPATHLEN]; } aligned(4),packed;
-/

/-- MAXPATHLEN on the host (sys/param.h). -/
def MAXPATHLEN : Nat := 1024

/-- The value of offsetof(struct attrNameBuf, name): 4 bytes for `length`
plus 8 bytes for the packed `attrreference_t` (int32 attr_dataoffset,
uint32 attr_length). -/
def attrNameBufNameOffset : Nat := 12

/-- The value of sizeof(struct attrNameBuf) = 12 + MAXPATHLEN. -/
def attrNameBufSize : Nat := 1036

/-- The attribute buffer returned by getattrlist for ATTR_CMN_NAME, as the
code reads it: the `length` field, the `nameRef` attribute reference, and
`payload`, the bytes of the buffer starting at the address of `nameRef`
(the snprintf source pointer is `(char *)&nameBuf.nameRef + attr_dataoffset`). -/
structure AttrNameBuf where
  length : Nat
  attr_dataoffset : Nat
  attr_length : Nat
  payload : List Char
deriving DecidableEq, Repr

/-- The bytes snprintf copies into `volname`:
`snprintf(volname, nameRef.attr_length, "%s", payload + attr_dataoffset)`
copies the source C-string (bytes up to the first NUL) truncated to
`attr_length - 1` bytes; with size 0 it copies nothing. -/
def probeVolname (nb : AttrNameBuf) : List Char :=
  if nb.attr_length = 0 then []
  else ((nb.payload.drop nb.attr_dataoffset).takeWhile
          (fun c => c ≠ '\x00')).take (nb.attr_length - 1)

/-- The bytes `write(1, volname, sizeof(volname))` sends to stdout: the whole
MAXPATHLEN-byte `volname` buffer, i.e. the copied name followed by the NUL
bytes left from `bzero`. -/
def probeStdout (nb : AttrNameBuf) : List Char :=
  (probeVolname nb ++ List.replicate MAXPATHLEN '\x00').take MAXPATHLEN

/-- The FSUC_PROBE arm of main on a device: `mounted` is the mount-scan
outcome, `attr` the getattrlist outcome (`none` = nonzero return).  Returns
the exit code and the bytes written to stdout. -/
def probePath (mounted : Bool) (attr : Option AttrNameBuf) :
    FSUR × List Char :=
  if !mounted then (FSUR.unrecognized, [])
  else
    match attr with
    | none => (FSUR.unrecognized, [])
    | some nb =>
      if nb.length < attrNameBufNameOffset then (FSUR.unrecognized, [])
      else if nb.length > attrNameBufSize then (FSUR.unrecognized, [])
      else (FSUR.recognized, probeStdout nb)

/-! ## FSUC_GETUUID arm (main, lines 705-782) -/

/-- OSSwapBigToHostInt32 on a little-endian host: the 32-bit byte swap. -/
def bswap32 (n : Nat) : Nat :=
  (n % 256) * 16777216 + (n / 256 % 256) * 65536 +
    (n / 65536 % 256) * 256 + n / 16777216 % 256

/-- One uppercase hexadecimal digit, for 0 <= n < 16. -/
def hexDigit (n : Nat) : Char :=
  if n < 10 then Char.ofNat (48 + n) else Char.ofNat (55 + n)

/-- Exactly `w` uppercase hexadecimal digits of `n`, most significant first:
the printf conversion %0wX for n < 16^w. -/
def hexFixed : Nat → Nat → List Char
  | 0, _ => []
  | w + 1, n => hexFixed w (n / 16) ++ [hexDigit (n % 16)]

/-- The bytes `fprintf(stdout, "%08X-%04X-%04X-%04X-%04X%08X", buf[1],
(buf[2]&0xffff0000)>>16, buf[2]&0x0000ffff, (buf[3]&0xffff0000)>>16,
buf[3]&0x0000ffff, buf[4])` sends to stdout. -/
def uuidChars (w1 w2 w3 w4 : Nat) : List Char :=
  hexFixed 8 w1 ++ '-' ::
    (hexFixed 4 ((w2 &&& 0xffff0000) >>> 16) ++ '-' ::
      (hexFixed 4 (w2 &&& 0x0000ffff) ++ '-' ::
        (hexFixed 4 ((w3 &&& 0xffff0000) >>> 16) ++ '-' ::
          (hexFixed 4 (w3 &&& 0x0000ffff) ++ hexFixed 8 w4))))

/-- The five uint32 words getattrlist returns for ATTR_VOL_UUID: `count` is
buf[0] (the returned-byte count, host order, checked before any swap) and
`w1..w4` are buf[1..4] as read from the buffer (big-endian wire order). -/
structure UuidAttrBuf where
  count : Nat
  w1 : Nat
  w2 : Nat
  w3 : Nat
  w4 : Nat
deriving DecidableEq, Repr

/-- The FSUC_GETUUID arm of main: `mounted` is the mount-scan outcome, `attr`
the getattrlist outcome.  Checks buf[0] >= 5*sizeof(uint32_t), swaps
buf[1..4] big-endian to host, validates the version-3 nibble of buf[2] and
the variant bits of buf[3], and on success prints the canonical UUID with no
trailing newline.  Returns the exit code and the bytes written to stdout. -/
def getuuidPath (mounted : Bool) (attr : Option UuidAttrBuf) :
    FSUR × List Char :=
  if !mounted then (FSUR.ioFail, [])
  else
    match attr with
    | none => (FSUR.ioFail, [])
    | some b =>
      if b.count < 20 then (FSUR.ioFail, [])
      else
        let h1 := bswap32 b.w1
        let h2 := bswap32 b.w2
        let h3 := bswap32 b.w3
        let h4 := bswap32 b.w4
        if h2 ≠ ((h2 &&& 0xFFFF0FFF) ||| 0x00003000) ∨
            h3 ≠ ((h3 &&& 0x3FFFFFFF) ||| 0x80000000) then
          (FSUR.ioFail, [])
        else
          (FSUR.ioSuccess, uuidChars h1 h2 h3 h4)

/-! ## do_import (lines 132-204) -/

/-- pool_state_t values used by the tool (POOL_STATE_ACTIVE,
POOL_STATE_EXPORTED, POOL_STATE_DESTROYED, POOL_STATE_UNAVAIL; the remaining
enumerators are never compared against here). -/
inductive PoolState where
  | active
  | exported
  | destroyed
  | unavail
deriving DecidableEq, Repr

/-- The import-flags bits do_import tests: ZFS_IMPORT_ANY_HOST and
ZFS_IMPORT_ONLY of the flags bitmask (the call site passes
ZFS_IMPORT_NORMAL, both clear). -/
structure ImportFlags where
  anyHost : Bool
  importOnly : Bool
deriving DecidableEq, Repr

/-- The fields of the candidate config nvlist that do_import reads.
SPA_VERSION_IS_SUPPORTED is a collaborator macro over the on-disk version;
its verdict is carried as the oracle bit `versionSupported`. -/
structure PoolConfig where
  pool_name : String
  pool_state : PoolState
  versionSupported : Bool
  hostid : Option Nat
  hostname : String
  timestamp : Nat
deriving DecidableEq, Repr

/-- Outcomes of the collaborator calls do_import makes after its own checks:
`system_hostid` is gethostid() & 0xffffffff; `import_props_rc` the
zpool_import_props return; `open_ok` whether zpool_open_canfail returned a
handle; `opened_state` zpool_get_state of that handle; `enable_rc` the
zpool_enable_datasets return. -/
structure DoImportEnv where
  system_hostid : Nat
  import_props_rc : Nat
  open_ok : Bool
  opened_state : PoolState
  enable_rc : Nat
deriving DecidableEq, Repr

/-- Result of do_import: the return value and whether the library's import
entry point zpool_import_props was invoked. -/
structure DoImportResult where
  ret : Nat
  importInvoked : Bool
deriving DecidableEq, Repr

/-- The tail of do_import from the zpool_import_props call on: import, open
by name (newname is NULL at the only call site), and dataset enable unless
the pool is UNAVAIL or ZFS_IMPORT_ONLY was set. -/
def doImportTail (flags : ImportFlags) (env : DoImportEnv) : DoImportResult :=
  if env.import_props_rc ≠ 0 then ⟨1, true⟩
  else if !env.open_ok then ⟨1, true⟩
  else if env.opened_state ≠ PoolState.unavail ∧ !flags.importOnly ∧
      env.enable_rc ≠ 0 then ⟨1, true⟩
  else ⟨0, true⟩

/-- do_import: version check, then the foreign-host check (only when the pool
state is not EXPORTED and ZFS_IMPORT_ANY_HOST is clear): a missing hostid
rejects, a hostid different from the local masked host id rejects, and only
then is zpool_import_props reached. -/
def do_import (config : PoolConfig) (flags : ImportFlags)
    (env : DoImportEnv) : DoImportResult :=
  if !config.versionSupported then ⟨1, false⟩
  else if config.pool_state ≠ PoolState.exported ∧ !flags.anyHost then
    match config.hostid with
    | some hostid =>
      if hostid ≠ env.system_hostid then ⟨1, false⟩
      else doImportTail flags env
    | none => ⟨1, false⟩
  else doImportTail flags env

/-! ## zpool_import_by_guid (lines 206-323)

Resource accounting: the function may allocate the rewind-policy nvlist and
receive the search-result nvlist from zpool_search_import, and it initializes
the library handle with libzfs_init.  The embedding records, per exit path,
what was allocated, what was freed, and whether libzfs_fini ran.
-/

/-- One entry of the list zpool_search_import returns: the fields the loop
reads (ZPOOL_CONFIG_POOL_STATE and ZPOOL_CONFIG_POOL_GUID). -/
structure ImportCandidate where
  pool_state : PoolState
  pool_guid : Nat
deriving DecidableEq, Repr

/-- Collaborator outcomes for one run of zpool_import_by_guid: libzfs_init
success, the three nvlist policy-building return codes, the PRIV_SYS_CONFIG
privilege check, the zpool_search_import result (`none` = NULL) with the
`idata.exists` flag, and the do_import verdict for the selected config. -/
structure ImportByGuidEnv where
  init_ok : Bool
  policy_alloc_rc : Nat
  policy_add_txg_rc : Nat
  policy_add_rewind_rc : Nat
  priv_ok : Bool
  pools : Option (List ImportCandidate)
  search_exists : Bool
  import_rc : Nat → Nat

/-- What a run of zpool_import_by_guid did by the time it returned: return
value, whether the policy nvlist had been allocated and freed, whether the
search-result list was non-NULL and freed, and whether libzfs_fini ran. -/
structure ImportByGuidResult where
  ret : Nat
  policyAllocated : Bool
  policyFreed : Bool
  poolsPresent : Bool
  poolsFreed : Bool
  finiCalled : Bool
deriving DecidableEq, Repr

/-- The candidate the loop leaves in found_config: the last entry whose state
is not POOL_STATE_DESTROYED and whose pool guid equals searchguid (each match
overwrites found_config). -/
def foundConfig (cands : List ImportCandidate) (searchguid : Nat) :
    Option ImportCandidate :=
  cands.foldl
    (fun acc c =>
      if c.pool_state ≠ PoolState.destroyed ∧ c.pool_guid = searchguid then
        some c
      else acc)
    none

/-- zpool_import_by_guid.  Exit paths in source order: libzfs_init failure
(line 226-227); policy-building failure (goto error, note err is still 0
there); privilege failure (lines 237-241: nvlist_free(policy) then return 1,
libzfs_fini is not reached); NULL search result (lines 247-260: same); and
the fallthrough into the error label (lines 317-322) which frees pools and
policy and runs libzfs_fini. -/
def zpool_import_by_guid (searchguid : Nat) (env : ImportByGuidEnv) :
    ImportByGuidResult :=
  if !env.init_ok then
    ⟨1, false, false, false, false, false⟩
  else if env.policy_alloc_rc ≠ 0 then
    ⟨0, false, false, false, false, true⟩
  else if env.policy_add_txg_rc ≠ 0 ∨ env.policy_add_rewind_rc ≠ 0 then
    ⟨0, true, true, false, false, true⟩
  else if !env.priv_ok then
    ⟨1, true, true, false, false, false⟩
  else
    match env.pools with
    | none => ⟨1, true, true, false, false, false⟩
    | some cands =>
      match foundConfig cands searchguid with
      | none => ⟨1, true, true, true, true, true⟩
      | some c =>
        ⟨if env.import_rc c.pool_guid ≠ 0 then 1 else 0,
          true, true, true, true, true⟩

/-! ## zpool_read_cachefile walk (lines 419-437)

    while ((nvpair = nvlist_next_nvpair(nvlist, nvpair)) != NULL) {
        if (nvpair_type(nvpair) != DATA_TYPE_NVLIST) continue;
        VERIFY(nvpair_value_nvlist(nvpair, &child) == 0);
        printf("Cachefile has pool '%s'\n", nvpair_name(nvpair));
        if (nvlist_lookup_uint64(child, ZPOOL_CONFIG_POOL_GUID, &guid) == 0) {
            printf("Cachefile has pool '%s' guid %llu\n", ...);
            importrc = zpool_import_by_guid(guid);
            printf("zpool import error %d\n", importrc);
        }
    }
-/

/-- The value of one manifest entry: a nested nvlist (whose only field the
walk reads is an optional ZPOOL_CONFIG_POOL_GUID) or any other data type. -/
inductive CacheValue where
  | nested (pool_guid : Option Nat)
  | other
deriving DecidableEq, Repr

/-- One entry of the unpacked cache manifest: nvpair name and value. -/
structure CacheEntry where
  name : String
  value : CacheValue
deriving DecidableEq, Repr

/-- Observable events of the cache walk, in program order: the two log lines,
the import attempt (the zpool_import_by_guid call), and the log line
reporting the import's return code. -/
inductive CacheEvent where
  | logPool (name : String)
  | logPoolGuid (name : String) (guid : Nat)
  | importAttempt (guid : Nat)
  | logImportRc (rc : Nat)
deriving DecidableEq, Repr

/-- The events one iteration of the walk emits for entry `e`, where `imprc`
gives the zpool_import_by_guid return code for a guid: a non-nvlist entry is
skipped by the continue; a nested entry is logged, and when it carries a
pool_guid the import is attempted and its return code logged. -/
def walkEntry (imprc : Nat → Nat) (e : CacheEntry) : List CacheEvent :=
  match e.value with
  | CacheValue.other => []
  | CacheValue.nested guid? =>
    CacheEvent.logPool e.name ::
      match guid? with
      | some guid =>
        [CacheEvent.logPoolGuid e.name guid,
         CacheEvent.importAttempt guid,
         CacheEvent.logImportRc (imprc guid)]
      | none => []

/-- The whole while loop of zpool_read_cachefile over the manifest in
nvlist iteration order. -/
def cachefileWalk (imprc : Nat → Nat) : List CacheEntry → List CacheEvent
  | [] => []
  | e :: rest => walkEntry imprc e ++ cachefileWalk imprc rest

/-- The guid the walk would import for an entry, when the entry qualifies:
its value is a nested nvlist carrying a pool_guid. -/
def qualifyingGuid (e : CacheEntry) : Option Nat :=
  match e.value with
  | CacheValue.nested guid? => guid?
  | CacheValue.other => none

/-- The sequence of import attempts in an event trace. -/
def importAttempts (events : List CacheEvent) : List Nat :=
  events.filterMap
    (fun ev =>
      match ev with
      | CacheEvent.importAttempt guid => some guid
      | _ => none)

/-! ## Concrete inputs used by the witnesses and counterexamples below -/

/-- The sixteen characters the %X conversion can emit. -/
def hexUpperChars : List Char := "0123456789ABCDEF".toList

/-- Concrete attribute buffer whose length field equals
offsetof(struct attrNameBuf, name) = 12 exactly. -/
def attrBufLen12 : AttrNameBuf :=
  ⟨12, 8, 5, List.replicate 8 '\x01' ++ ('D' :: 'a' :: 't' :: 'a' :: '\x00' :: [])⟩

/-- A mount entry whose source /dev/disk3 is a strict prefix of the block
path /dev/disk3s1. -/
def prefixEntry : MountEntry := ⟨"/dev/disk3".toList, "/Volumes/X".toList⟩

/-- A well-formed attribute buffer for a mounted volume named "Data":
length = 17, name reference at offset 8 from nameRef with attr_length 5
(the four name bytes plus the terminating NUL). -/
def attrBufData : AttrNameBuf :=
  ⟨17, 8, 5, List.replicate 8 '\x01' ++ ('D' :: 'a' :: 't' :: 'a' :: '\x00' :: [])⟩

/-- The concrete UUID attribute result of spec scenario 3: wire words whose
host-order values are AABBCCDD-1122-3344-89AB-CDEFDEADBEEF (version nibble 3,
variant bits 10). -/
def uuidBufValid : UuidAttrBuf :=
  ⟨20, 0xDDCCBBAA, 0x44332211, 0xEFCDAB89, 0xEFBEADDE⟩

/-- The concrete UUID attribute result for the C5 witness: host-order words
00000000-1122-3344-89AB-CDEF00000000. -/
def uuidBufValid2 : UuidAttrBuf := ⟨20, 0, 0x44332211, 0xEFCDAB89, 0⟩

/-- A candidate config owned by a foreign host: hostid 7, state ACTIVE. -/
def foreignConfig : PoolConfig :=
  ⟨"tank", PoolState.active, true, some 7, "otherhost", 1234⟩

/-- The flags the tool passes (ZFS_IMPORT_NORMAL). -/
def normalFlags : ImportFlags := ⟨false, false⟩

/-- A collaborator environment whose local masked host identifier is 42 and
in which every library call would succeed. -/
def importEnv0 : DoImportEnv := ⟨42, 0, true, PoolState.active, 0⟩

/-- The collaborator environment of the permission-denied outcome:
libzfs_init and the policy allocation succeed, PRIV_SYS_CONFIG is absent. -/
def importDeniedEnv : ImportByGuidEnv :=
  ⟨true, 0, 0, 0, false, none, false, fun _ => 0⟩

/-- The collaborator environment of the empty-candidate outcome:
zpool_search_import returns NULL and no pool with the guid exists. -/
def importNoPoolsEnv : ImportByGuidEnv :=
  ⟨true, 0, 0, 0, true, none, false, fun _ => 0⟩

/-- A manifest entry whose value is not a nested nvlist. -/
def badEntry : CacheEntry := ⟨"junk", CacheValue.other⟩

/-- A qualifying manifest entry for pool tank, guid 17. -/
def goodEntry1 : CacheEntry := ⟨"tank", CacheValue.nested (some 17)⟩

/-- A qualifying manifest entry for pool vault, guid 34. -/
def goodEntry2 : CacheEntry := ⟨"vault", CacheValue.nested (some 34)⟩

/-- An import oracle under which every import attempt fails. -/
def failImportRc : Nat → Nat := fun _ => 1

/-! ## Shared helper lemmas -/

/-- A '/' never survives into the suffix after the last '/'. -/
theorem slash_not_mem_afterLastSlash (t : List Char) :
    '/' ∉ afterLastSlash t := by
  intro h
  rw [afterLastSlash, List.mem_reverse] at h
  have hp := List.mem_takeWhile_imp h
  simp at hp

/-- Unfolding of the PROBE arm on a mounted device with a successful
getattrlist call. -/
theorem probePath_step (nb : AttrNameBuf) :
    probePath true (some nb) =
      (if nb.length < attrNameBufNameOffset then (FSUR.unrecognized, [])
       else if nb.length > attrNameBufSize then (FSUR.unrecognized, [])
       else (FSUR.recognized, probeStdout nb)) := rfl

/-- Unfolding of the GETUUID arm on a mounted device with a successful
getattrlist call. -/
theorem getuuidPath_step (b : UuidAttrBuf) :
    getuuidPath true (some b) =
      (if b.count < 20 then (FSUR.ioFail, [])
       else if bswap32 b.w2 ≠ ((bswap32 b.w2 &&& 0xFFFF0FFF) ||| 0x00003000) ∨
           bswap32 b.w3 ≠ ((bswap32 b.w3 &&& 0x3FFFFFFF) ||| 0x80000000) then
         (FSUR.ioFail, [])
       else
         (FSUR.ioSuccess,
           uuidChars (bswap32 b.w1) (bswap32 b.w2) (bswap32 b.w3)
             (bswap32 b.w4))) := rfl

/-! ## Claim C1 (device-name normalizer) -/

/-- Claim C1, counterexample: the token "rrdisk0s1" normalizes to "rdisk0s1",
which begins with the byte 'r' — the code drops only a single leading 'r', so
the claim "never begins with the byte 'r'" is false. -/
theorem normalizeDevname_leading_r_counterexample :
    (normalizeDevname ("rrdisk0s1".toList)).head? = some 'r' := by decide

/-- Claim C1 (amended): for every caller-supplied device token the normalized
short device name contains no '/' character, and it begins with the byte 'r'
only when the substring after the last '/' began with two 'r' bytes (exactly
one leading 'r' is dropped). -/
theorem normalizeDevname_spec (t : List Char) :
    '/' ∉ normalizeDevname t ∧
      ∀ rest, normalizeDevname t = 'r' :: rest →
        afterLastSlash t = 'r' :: 'r' :: rest := by
  constructor
  · intro h
    simp only [normalizeDevname] at h
    by_cases hh : (afterLastSlash t).head? = some 'r'
    · rw [if_pos hh] at h
      exact slash_not_mem_afterLastSlash t (List.mem_of_mem_tail h)
    · rw [if_neg hh] at h
      exact slash_not_mem_afterLastSlash t h
  · intro rest hr
    simp only [normalizeDevname] at hr
    by_cases hh : (afterLastSlash t).head? = some 'r'
    · rw [if_pos hh] at hr
      cases hd : afterLastSlash t with
      | nil => rw [hd] at hh; simp at hh
      | cons a as =>
        rw [hd] at hh hr
        simp only [List.head?_cons, Option.some.injEq] at hh
        simp only [List.tail_cons] at hr
        rw [hh, hr]
    · rw [if_neg hh] at hr
      exact absurd (by rw [hr]; rfl : (afterLastSlash t).head? = some 'r') hh

/-- Claim C1, witness at a concrete token. -/
theorem normalizeDevname_spec_witness :
    afterLastSlash ("rrdisk0s1".toList) = 'r' :: 'r' :: "disk0s1".toList :=
  (normalizeDevname_spec ("rrdisk0s1".toList)).2 ("disk0s1".toList) (by decide)

/-! ## Claim C3 (PROBE attribute-buffer length validation) -/

/-- Claim C3, counterexample: a mounted PROBE with an attribute buffer whose
length field equals offsetof(name) = 12 exactly is accepted (the check is
`length < offsetof`, strict), so the exit code is RECOGNIZED, not the claimed
UNRECOGNIZED. -/
theorem probePath_accepts_length_eq_offset :
    (probePath true (some attrBufLen12)).1 = FSUR.recognized := rfl

/-- Claim C3 (amended): in the PROBE path on a mounted volume the attribute
buffer is accepted iff offsetof(name) <= length <= sizeof(attrNameBuf): a
length strictly below the fixed prefix is rejected (UNRECOGNIZED), a length
strictly above the receive-buffer size is rejected, and both boundary values
are accepted. -/
theorem probePath_length_bounds (nb : AttrNameBuf) :
    (probePath true (some nb)).1 = FSUR.recognized ↔
      attrNameBufNameOffset ≤ nb.length ∧ nb.length ≤ attrNameBufSize := by
  rw [probePath_step]
  simp only [attrNameBufNameOffset, attrNameBufSize] at *
  split_ifs with h1 h2 <;> simp <;> omega

/-- Claim C3, witness: a buffer with an in-bounds length field (17) is
accepted and exits RECOGNIZED. -/
theorem probePath_length_bounds_witness :
    (probePath true (some attrBufData)).1 = FSUR.recognized :=
  (probePath_length_bounds attrBufData).mpr (by decide)

/-! ## Claim C6 (mount-table scanner) -/

/-- Claim C6: the scanner reports the device as mounted iff some mount entry
has a source of the same length as the canonical block path that compares
byte-for-byte equal, and it never selects an entry whose source differs from
the block path (so a strict prefix such as /dev/disk3 versus /dev/disk3s1 is
never matched). -/
theorem mountScanFind_spec (entries : List MountEntry) (block : List Char) :
    ((mountScanFind entries block).isSome = true ↔
        ∃ e ∈ entries, e.f_mntfromname.length = block.length ∧
          e.f_mntfromname = block) ∧
      ∀ e ∈ entries, e.f_mntfromname ≠ block →
        mountScanFind entries block ≠ some e := by
  constructor
  · rw [mountScanFind, List.find?_isSome]
    constructor
    · rintro ⟨e, he, hp⟩
      simp only [Bool.and_eq_true, beq_iff_eq] at hp
      exact ⟨e, he, hp.1, hp.2⟩
    · rintro ⟨e, he, hlen, heq⟩
      exact ⟨e, he, by simp [hlen, heq]⟩
  · intro e he hne hsome
    have hp := List.find?_some hsome
    simp only [Bool.and_eq_true, beq_iff_eq] at hp
    exact hne hp.2

/-- Claim C6, witness: the strict-prefix source /dev/disk3 is never matched
against the block path /dev/disk3s1. -/
theorem mountScanFind_spec_witness :
    mountScanFind [prefixEntry] ("/dev/disk3s1".toList) ≠ some prefixEntry :=
  (mountScanFind_spec [prefixEntry] ("/dev/disk3s1".toList)).2 prefixEntry
    (by decide) (by decide)

/-! ## Claim C7 (PROBE stdout contents) -/

/-- Claim C7, counterexample: probing a mounted volume named "Data" exits
RECOGNIZED but does not write exactly the bytes "Data" — the code performs
`write(1, volname, sizeof(volname))`, sending the whole 1024-byte volname
buffer (the name followed by NUL padding), not just the name bytes. -/
theorem probePath_stdout_counterexample :
    (probePath true (some attrBufData)).1 = FSUR.recognized ∧
      ((probePath true (some attrBufData)).2).length = 1024 ∧
      (probePath true (some attrBufData)).2 ≠ "Data".toList := by
  have hpath : probePath true (some attrBufData) =
      (FSUR.recognized, probeStdout attrBufData) := rfl
  have hlen : ((probePath true (some attrBufData)).2).length = 1024 := by
    rw [hpath]
    show (probeStdout attrBufData).length = 1024
    simp only [probeStdout, MAXPATHLEN, List.length_take, List.length_append,
      List.length_replicate]
    omega
  refine ⟨by rw [hpath], hlen, ?_⟩
  intro h
  have hl := congrArg List.length h
  rw [hlen] at hl
  exact absurd hl (by decide)

/-- Claim C7 (amended): in the PROBE path on a mounted volume with a
well-formed attribute buffer, stdout receives exactly MAXPATHLEN (1024)
bytes: the volume name bytes followed by NUL padding (the entire volname
buffer is written), and the process exits RECOGNIZED. -/
theorem probePath_writes_padded_volname (nb : AttrNameBuf)
    (h1 : attrNameBufNameOffset ≤ nb.length)
    (h2 : nb.length ≤ attrNameBufSize)
    (h3 : nb.attr_length ≤ MAXPATHLEN) :
    probePath true (some nb) =
        (FSUR.recognized,
          probeVolname nb ++
            List.replicate (MAXPATHLEN - (probeVolname nb).length) '\x00') ∧
      ((probePath true (some nb)).2).length = MAXPATHLEN := by
  have hv : (probeVolname nb).length ≤ MAXPATHLEN := by
    rw [probeVolname]
    simp only [MAXPATHLEN] at *
    split_ifs with h
    · simp
    · have := List.length_take_le (nb.attr_length - 1)
        ((nb.payload.drop nb.attr_dataoffset).takeWhile (fun c => c ≠ '\x00'))
      omega
  have hpath : probePath true (some nb) = (FSUR.recognized, probeStdout nb) := by
    rw [probePath_step]
    have hlt : ¬ nb.length < attrNameBufNameOffset := by omega
    have hgt : ¬ nb.length > attrNameBufSize := by omega
    rw [if_neg hlt, if_neg hgt]
  have hstdout : probeStdout nb =
      probeVolname nb ++
        List.replicate (MAXPATHLEN - (probeVolname nb).length) '\x00' := by
    rw [probeStdout, List.take_append_eq_append_take,
      List.take_of_length_le hv, List.take_replicate]
    congr 1
    exact congrArg (fun n => List.replicate n '\x00')
      (Nat.min_eq_left (Nat.sub_le _ _))
  refine ⟨by rw [hpath, hstdout], ?_⟩
  rw [hpath]
  show (probeStdout nb).length = MAXPATHLEN
  rw [hstdout, List.length_append, List.length_replicate]
  exact Nat.add_sub_cancel' hv

/-- Claim C7, witness: the "Data" buffer yields exit RECOGNIZED and a
1024-byte stdout. -/
theorem probePath_writes_padded_volname_witness :
    probePath true (some attrBufData) =
        (FSUR.recognized,
          probeVolname attrBufData ++
            List.replicate (MAXPATHLEN - (probeVolname attrBufData).length)
              '\x00') ∧
      ((probePath true (some attrBufData)).2).length = MAXPATHLEN :=
  probePath_writes_padded_volname attrBufData (by decide) (by decide)
    (by decide)

/-! ## Claims C4 and C5 (GETUUID validation and output) -/

/-- hexDigit hits the uppercase hexadecimal alphabet. -/
theorem hexDigit_mem (n : Nat) (h : n < 16) : hexDigit n ∈ hexUpperChars := by
  interval_cases n <;> decide

/-- A fixed-width conversion emits exactly its width in characters. -/
theorem hexFixed_length (w : Nat) : ∀ n, (hexFixed w n).length = w := by
  induction w with
  | zero => intro n; rfl
  | succ w ih => intro n; simp [hexFixed, ih]

/-- Every character of a fixed-width conversion is an uppercase hex digit. -/
theorem hexFixed_mem (w : Nat) :
    ∀ n, ∀ c ∈ hexFixed w n, c ∈ hexUpperChars := by
  induction w with
  | zero => intro n c hc; simp [hexFixed] at hc
  | succ w ih =>
    intro n c hc
    rw [hexFixed] at hc
    rcases List.mem_append.mp hc with h | h
    · exact ih (n / 16) c h
    · rw [List.mem_singleton.mp h]
      exact hexDigit_mem (n % 16) (Nat.mod_lt n (by decide))

/-- The canonical UUID rendering is 36 characters long. -/
theorem uuidChars_length (w1 w2 w3 w4 : Nat) :
    (uuidChars w1 w2 w3 w4).length = 36 := by
  simp [uuidChars, hexFixed_length]

/-- Every character of the canonical UUID rendering is a dash or an
uppercase hex digit. -/
theorem uuidChars_mem (w1 w2 w3 w4 : Nat) :
    ∀ c ∈ uuidChars w1 w2 w3 w4, c = '-' ∨ c ∈ hexUpperChars := by
  intro c hc
  rw [uuidChars] at hc
  rcases List.mem_append.mp hc with h | h
  · exact Or.inr (hexFixed_mem 8 _ c h)
  · rcases List.mem_cons.mp h with h | h
    · exact Or.inl h
    · rcases List.mem_append.mp h with h | h
      · exact Or.inr (hexFixed_mem 4 _ c h)
      · rcases List.mem_cons.mp h with h | h
        · exact Or.inl h
        · rcases List.mem_append.mp h with h | h
          · exact Or.inr (hexFixed_mem 4 _ c h)
          · rcases List.mem_cons.mp h with h | h
            · exact Or.inl h
            · rcases List.mem_append.mp h with h | h
              · exact Or.inr (hexFixed_mem 4 _ c h)
              · rcases List.mem_cons.mp h with h | h
                · exact Or.inl h
                · rcases List.mem_append.mp h with h | h
                  · exact Or.inr (hexFixed_mem 4 _ c h)
                  · exact Or.inr (hexFixed_mem 8 _ c h)

/-- Claim C4: on a mounted GETUUID with a full-size attribute result, the
UUID is accepted (exit IO_SUCCESS) iff, after byte-swapping to host order,
the version nibble of the second word equals 3 and the variant bits of the
third word equal 0b10; a UUID violating either constraint exits IO_FAIL with
nothing written to stdout. -/
theorem getuuidPath_validates_uuid (b : UuidAttrBuf) (hc : 20 ≤ b.count) :
    ((getuuidPath true (some b)).1 = FSUR.ioSuccess ↔
        bswap32 b.w2 = ((bswap32 b.w2 &&& 0xFFFF0FFF) ||| 0x00003000) ∧
          bswap32 b.w3 = ((bswap32 b.w3 &&& 0x3FFFFFFF) ||| 0x80000000)) ∧
      (¬(bswap32 b.w2 = ((bswap32 b.w2 &&& 0xFFFF0FFF) ||| 0x00003000) ∧
          bswap32 b.w3 = ((bswap32 b.w3 &&& 0x3FFFFFFF) ||| 0x80000000)) →
        getuuidPath true (some b) = (FSUR.ioFail, [])) := by
  have hlt : ¬ b.count < 20 := by omega
  rw [getuuidPath_step, if_neg hlt]
  split_ifs with h
  · constructor
    · constructor
      · intro habs; simp at habs
      · intro hok
        rcases h with h | h
        · exact absurd hok.1 h
        · exact absurd hok.2 h
    · intro _; rfl
  · push_neg at h
    constructor
    · constructor
      · intro _; exact h
      · intro _; rfl
    · intro habs; exact absurd h habs

/-- Claim C4, witness: the valid UUID is accepted. -/
theorem getuuidPath_validates_uuid_witness :
    (getuuidPath true (some uuidBufValid)).1 = FSUR.ioSuccess :=
  (getuuidPath_validates_uuid uuidBufValid (by decide)).1.mpr (by decide)

/-- Claim C5: when the UUID passes validation, stdout receives exactly the
36-character canonical uppercase hex form %08X-%04X-%04X-%04X-%04X%08X (each
character a dash or an uppercase hex digit), with no newline anywhere in the
output, and the exit code is IO_SUCCESS. -/
theorem getuuidPath_success_output (b : UuidAttrBuf) (hc : 20 ≤ b.count)
    (hv2 : bswap32 b.w2 = ((bswap32 b.w2 &&& 0xFFFF0FFF) ||| 0x00003000))
    (hv3 : bswap32 b.w3 = ((bswap32 b.w3 &&& 0x3FFFFFFF) ||| 0x80000000)) :
    getuuidPath true (some b) =
        (FSUR.ioSuccess,
          uuidChars (bswap32 b.w1) (bswap32 b.w2) (bswap32 b.w3)
            (bswap32 b.w4)) ∧
      ((getuuidPath true (some b)).2).length = 36 ∧
      '\n' ∉ (getuuidPath true (some b)).2 ∧
      ∀ c ∈ (getuuidPath true (some b)).2, c = '-' ∨ c ∈ hexUpperChars := by
  have hlt : ¬ b.count < 20 := by omega
  have hcond : ¬(bswap32 b.w2 ≠ ((bswap32 b.w2 &&& 0xFFFF0FFF) ||| 0x00003000) ∨
      bswap32 b.w3 ≠ ((bswap32 b.w3 &&& 0x3FFFFFFF) ||| 0x80000000)) := by
    push_neg
    exact ⟨hv2, hv3⟩
  have hpath : getuuidPath true (some b) =
      (FSUR.ioSuccess,
        uuidChars (bswap32 b.w1) (bswap32 b.w2) (bswap32 b.w3)
          (bswap32 b.w4)) := by
    rw [getuuidPath_step, if_neg hlt, if_neg hcond]
  refine ⟨hpath, ?_, ?_, ?_⟩
  · rw [hpath]
    exact uuidChars_length _ _ _ _
  · rw [hpath]
    intro hmem
    rcases uuidChars_mem _ _ _ _ '\n' hmem with h | h
    · exact absurd h (by decide)
    · exact absurd h (by decide)
  · rw [hpath]
    exact uuidChars_mem _ _ _ _

/-- Claim C5, witness: on the valid UUID the path returns IO_SUCCESS with the
canonical 36-character rendering. -/
theorem getuuidPath_success_output_witness :
    getuuidPath true (some uuidBufValid2) =
        (FSUR.ioSuccess,
          uuidChars (bswap32 uuidBufValid2.w1) (bswap32 uuidBufValid2.w2)
            (bswap32 uuidBufValid2.w3) (bswap32 uuidBufValid2.w4)) ∧
      ((getuuidPath true (some uuidBufValid2)).2).length = 36 :=
  ⟨(getuuidPath_success_output uuidBufValid2 (by decide) (by decide)
      (by decide)).1,
    (getuuidPath_success_output uuidBufValid2 (by decide) (by decide)
      (by decide)).2.1⟩

/-! ## Claim C8 (do_import foreign-host check) -/

/-- Claim C8: for a candidate config whose pool state is not EXPORTED and
with ZFS_IMPORT_ANY_HOST clear, a missing hostid or a hostid differing from
the local masked host identifier makes do_import return failure without
invoking zpool_import_props, and the import entry point is only ever reached
with a matching hostid. -/
theorem do_import_foreign_host (config : PoolConfig) (flags : ImportFlags)
    (env : DoImportEnv) (hstate : config.pool_state ≠ PoolState.exported)
    (hany : flags.anyHost = false) :
    ((config.hostid = none ∨
        ∃ h, config.hostid = some h ∧ h ≠ env.system_hostid) →
      do_import config flags env = ⟨1, false⟩) ∧
      ((do_import config flags env).importInvoked = true →
        config.hostid = some env.system_hostid) := by
  constructor
  · rintro (hnone | ⟨h, hsome, hne⟩)
    · cases hv : config.versionSupported <;>
        simp [do_import, hv, hstate, hany, hnone]
    · cases hv : config.versionSupported <;>
        simp [do_import, hv, hstate, hany, hsome, hne]
  · intro hinv
    cases hv : config.versionSupported with
    | false => simp [do_import, hv] at hinv
    | true =>
      cases hh : config.hostid with
      | none => simp [do_import, hv, hh, hstate, hany] at hinv
      | some h =>
        by_cases hne : h = env.system_hostid
        · exact congrArg some hne
        · simp [do_import, hv, hh, hstate, hany, hne] at hinv

/-- Claim C8, witness: hostid 7 against local host identifier 42 is rejected
without invoking the import entry point. -/
theorem do_import_foreign_host_witness :
    do_import foreignConfig normalFlags importEnv0 = ⟨1, false⟩ :=
  (do_import_foreign_host foreignConfig normalFlags importEnv0 (by decide)
      (by decide)).1 (Or.inr ⟨7, rfl, by decide⟩)

/-! ## Claim C2 (zpool_import_by_guid resource finalization) -/

/-- Claim C2 fails on the code: on the permission-denied exit path (lines
237-241) zpool_import_by_guid frees the policy record and returns 1 but
never reaches libzfs_fini, so the library handle is not finalized; the same
happens on the NULL-search-result paths (lines 247-260).  The heap
allocations themselves are freed on these paths. -/
theorem zpool_import_by_guid_missing_fini :
    (zpool_import_by_guid 42 importDeniedEnv).finiCalled = false ∧
      (zpool_import_by_guid 42 importDeniedEnv).ret = 1 ∧
      (zpool_import_by_guid 42 importDeniedEnv).policyFreed = true ∧
      (zpool_import_by_guid 42 importNoPoolsEnv).finiCalled = false ∧
      (zpool_import_by_guid 42 importNoPoolsEnv).policyFreed = true :=
  ⟨rfl, rfl, rfl, rfl, rfl⟩

/-! ## Claims C9 and C10 (cache-file walk) -/

/-- The import attempts of a single iteration: exactly the qualifying guid. -/
theorem importAttempts_walkEntry (imprc : Nat → Nat) (e : CacheEntry) :
    importAttempts (walkEntry imprc e) = (qualifyingGuid e).toList := by
  rcases e with ⟨name, v⟩
  cases v with
  | other => rfl
  | nested g =>
    cases g with
    | none => rfl
    | some guid => rfl

/-- importAttempts distributes over trace concatenation. -/
theorem importAttempts_append (l1 l2 : List CacheEvent) :
    importAttempts (l1 ++ l2) = importAttempts l1 ++ importAttempts l2 :=
  List.filterMap_append l1 l2 _

/-- Claim C9: the cache-import walk attempts exactly one import per
qualifying manifest entry, in manifest iteration order, and the attempt
sequence does not depend on the per-pool import outcomes (a failed import
never prevents the next entry from being attempted). -/
theorem cachefileWalk_attempts (imprc : Nat → Nat)
    (entries : List CacheEntry) :
    importAttempts (cachefileWalk imprc entries) =
      entries.filterMap qualifyingGuid := by
  induction entries with
  | nil => rfl
  | cons e rest ih =>
    have hstep : cachefileWalk imprc (e :: rest) =
        walkEntry imprc e ++ cachefileWalk imprc rest := rfl
    rw [hstep, importAttempts_append, importAttempts_walkEntry, ih]
    cases hq : qualifyingGuid e <;> simp [List.filterMap_cons, hq]

/-- Claim C10: a manifest entry whose value is not a nested nvlist, or whose
nested nvlist lacks a pool_guid, is skipped: the walk emits no import
attempt and no import-error log line for it, and the remainder of the
manifest is processed exactly as if the walk were resumed after it. -/
theorem cachefileWalk_skips (imprc : Nat → Nat) (l1 l2 : List CacheEntry)
    (e : CacheEntry) (he : qualifyingGuid e = none) :
    cachefileWalk imprc (l1 ++ e :: l2) =
        cachefileWalk imprc l1 ++
          (walkEntry imprc e ++ cachefileWalk imprc l2) ∧
      importAttempts (walkEntry imprc e) = [] ∧
      ∀ rc, CacheEvent.logImportRc rc ∉ walkEntry imprc e := by
  refine ⟨?_, ?_, ?_⟩
  · induction l1 with
    | nil => rfl
    | cons a l ih =>
      have hstep : cachefileWalk imprc (a :: (l ++ e :: l2)) =
          walkEntry imprc a ++ cachefileWalk imprc (l ++ e :: l2) := rfl
      rw [List.cons_append, hstep, ih]
      have hstep2 : cachefileWalk imprc (a :: l) =
          walkEntry imprc a ++ cachefileWalk imprc l := rfl
      rw [hstep2, List.append_assoc]
  · rw [importAttempts_walkEntry, he]
    rfl
  · intro rc hmem
    rcases e with ⟨name, v⟩
    cases v with
    | other => simp [walkEntry] at hmem
    | nested g =>
      cases g with
      | none => simp [walkEntry] at hmem
      | some guid => simp [qualifyingGuid] at he

/-- Claim C10, witness: a non-nvlist entry between two qualifying entries is
skipped without an import attempt even when every import fails. -/
theorem cachefileWalk_skips_witness :
    cachefileWalk failImportRc ([goodEntry1] ++ badEntry :: [goodEntry2]) =
        cachefileWalk failImportRc [goodEntry1] ++
          (walkEntry failImportRc badEntry ++
            cachefileWalk failImportRc [goodEntry2]) ∧
      importAttempts (walkEntry failImportRc badEntry) = [] :=
  ⟨(cachefileWalk_skips failImportRc [goodEntry1] [goodEntry2] badEntry
      rfl).1,
    (cachefileWalk_skips failImportRc [goodEntry1] [goodEntry2] badEntry
      rfl).2.1⟩

end ZfsUtil
